import Mathlib

/-!
Shallow embedding of `src/errorStatus.ts` from the nuxt-client-error
repository, together with theorems settling the specification claims.

The TypeScript function `errorStatus(error, t, customError?, options?)`
returns a computed string; we model a single evaluation of the computed
getter.  JavaScript exceptions are modelled by `Except Unit`: a callback
that can throw is a function into `Except Unit _`, and an evaluation that
lets an exception escape to the caller is `Except.error ()`.

The error value (`Error | string | number | null | undefined`) becomes the
inductive `ErrVal`; the absent-or-present arguments (`error` holder, `t`,
`customError`, `options`) become `Option`s.  The ambient server probe
`isServer()` (which inspects `process` and `window`) is passed in as a
boolean parameter `isSrv`.
-/

/-- The classified error value: `null`/`undefined`, a string, a JS number
(the codes of interest are integers), or an `Error` object carrying a
message. -/
inductive ErrVal where
  | null : ErrVal
  | str : String → ErrVal
  | num : Int → ErrVal
  | errObj : String → ErrVal
deriving DecidableEq

/-- The translate callback `t : (key: string) => string`; it may throw. -/
abbrev Translate := String → Except Unit String

/-- The `CustomError` callback: takes the error value, returns
`string | null`, and may throw. -/
abbrev CustomError := ErrVal → Except Unit (Option String)

/-- The `ErrorStatusOptions` record with its two optional boolean fields. -/
structure ErrorStatusOptions where
  debug : Option Bool
  serverOnly : Option Bool
deriving DecidableEq

/-- JavaScript truthiness of an `ErrVal` (`if (error.value)`): `null` and
`undefined` are falsy, a string is truthy iff non-empty, a number is
truthy iff non-zero, and an `Error` object is always truthy. -/
def truthy : ErrVal → Bool
  | ErrVal.null => false
  | ErrVal.str s => s != ""
  | ErrVal.num n => n != 0
  | ErrVal.errObj _ => true

/-- Message extraction (lines 51-61 of the source): a string verbatim, an
`Error` object's message, a number's decimal string, otherwise `""`. -/
def extractMessage : ErrVal → String
  | ErrVal.str s => s
  | ErrVal.errObj m => m
  | ErrVal.num n => toString n
  | ErrVal.null => ""

/-- Does `pat` occur at the head of `l`? (helper for substring search) -/
def leadsWith : List Char → List Char → Bool
  | [], _ => true
  | _ :: _, [] => false
  | a :: pa, b :: sb => a == b && leadsWith pa sb

/-- Does `pat` occur somewhere in `l`? (helper for substring search) -/
def hasSub (pat : List Char) : List Char → Bool
  | [] => pat.isEmpty
  | b :: sb => leadsWith pat (b :: sb) || hasSub pat sb

/-- JavaScript `s.includes(pat)`: `pat` is a contiguous substring of `s`. -/
def strContains (s pat : String) : Bool :=
  hasSub pat.toList s.toList

/-- The fixed ordered list of recognized HTTP status codes (line 71). -/
def httpStatusCodes : List Int :=
  [400, 401, 403, 404, 408, 429, 500, 502, 503, 504]

/-- The direct numeric check (lines 76-81): if the original error value is
a number that is one of the known codes, that code. -/
def directNumericCode : ErrVal → Option Int
  | ErrVal.num n =>
      if httpStatusCodes.contains n then Option.some n else Option.none
  | _ => Option.none

/-- The string-based scan (lines 84-88): the first code in the fixed order
whose decimal string is a substring of the message. -/
def firstCodeIn (msg : String) : Option Int :=
  httpStatusCodes.find? (fun code => strContains msg (toString code))

/-- The body of the `try` block (lines 41-97).  Calling an absent `t`
throws, hence the `Except.error` in the missing-`t` branch of the
missing-parameters guard.  The source's local variable `errorMessage`
is `extractMessage v`, inlined at its three use sites. -/
def tryBody (error : Option ErrVal) (t : Option Translate)
    (customError : Option CustomError) : Except Unit String :=
  match t with
  | Option.none => Except.error ()
  | Option.some tf =>
    match error with
    | Option.none => tf "errStatus.missingParameters"
    | Option.some v =>
      if truthy v then
        if strContains (extractMessage v) "aborted" then
          tf "errStatus.abortError"
        else if strContains (extractMessage v) "timeout" then
          tf "errStatus.408"
        else
          match directNumericCode v with
          | Option.some code => tf ("errStatus." ++ toString code)
          | Option.none =>
            match firstCodeIn (extractMessage v) with
            | Option.some code => tf ("errStatus." ++ toString code)
            | Option.none =>
              match customError with
              | Option.some ce =>
                match ce v with
                | Except.error e => Except.error e
                | Except.ok (Option.some msg) =>
                    if msg == "" then tf "errStatus.defaultStatusError"
                    else Except.ok msg
                | Except.ok Option.none => tf "errStatus.defaultStatusError"
              | Option.none => tf "errStatus.defaultStatusError"
      else
        tf "errStatus.defaultStatusError"

/-- The `catch` handler (lines 98-104) wrapped around a body: a fault in
the body is answered with `t("errStatus.unexpectedError")`, which itself
throws when `t` is absent. -/
def runCatch (t : Option Translate) (body : Except Unit String) :
    Except Unit String :=
  match body with
  | Except.ok s => Except.ok s
  | Except.error _ =>
    match t with
    | Option.none => Except.error ()
    | Option.some tf => tf "errStatus.unexpectedError"

/-- One evaluation of the computed getter returned by `errorStatus`.
The `options` record and the server probe only gate console logging and
do not influence the returned string. -/
def errorStatus (error : Option ErrVal) (t : Option Translate)
    (customError : Option CustomError)
    (_options : Option ErrorStatusOptions) (_isSrv : Bool) :
    Except Unit String :=
  runCatch t (tryBody error t customError)

/-- The logging gate `logOption` (lines 116-129), with the result of the
ambient `isServer()` probe passed in as `isSrv`. -/
def logOption (isSrv : Bool) (options : Option ErrorStatusOptions) : Bool :=
  match options with
  | Option.none => false
  | Option.some o =>
    if !(o.debug.getD false) then false
    else if !(o.serverOnly.getD false) then true
    else isSrv

/-! ## Helper lemmas about the embedded definitions -/

/-- Searching an empty list for a non-empty pattern fails. -/
theorem hasSub_nil_of_ne (pat : List Char) (hp : pat ≠ []) :
    hasSub pat [] = false := by
  cases pat with
  | nil => exact absurd rfl hp
  | cons a as => rfl

/-- The empty string contains no non-empty pattern. -/
theorem strContains_empty_left (pat : String) (hp : pat ≠ "") :
    strContains "" pat = false := by
  have hd : pat.toList ≠ [] := by
    intro hnil
    apply hp
    cases pat with
    | mk d =>
      cases d with
      | nil => rfl
      | cons c cs => simp [String.toList] at hnil
  exact hasSub_nil_of_ne pat.toList hd

/-- A string containing a non-empty pattern is itself non-empty. -/
theorem ne_empty_of_strContains (s pat : String) (hp : pat ≠ "")
    (h : strContains s pat = true) : s ≠ "" := by
  intro hs
  subst hs
  rw [strContains_empty_left pat hp] at h
  exact Bool.false_ne_true h

/-- A `find?` over a decomposed list hits the first satisfying element. -/
theorem find?_eq_some_of_decomp {α : Type} (p : α → Bool) (l1 l2 : List α)
    (c : α) (h1 : ∀ d ∈ l1, p d = false) (h2 : p c = true) :
    (l1 ++ c :: l2).find? p = Option.some c := by
  induction l1 with
  | nil => simp [List.find?, h2]
  | cons a as ih =>
    have ha : p a = false := h1 a (List.mem_cons_self a as)
    simp only [List.cons_append, List.find?, ha]
    exact ih (fun d hd => h1 d (List.mem_cons_of_mem a hd))

/-- The catch wrapper passes a successful body straight through. -/
theorem runCatch_ok (t : Option Translate) (m : String) :
    runCatch t (Except.ok m) = Except.ok m := rfl

/-- Branch equation: a falsy held value goes to the default message. -/
theorem tryBody_falsy (v : ErrVal) (tf : Translate)
    (customError : Option CustomError) (htr : truthy v = false) :
    tryBody (Option.some v) (Option.some tf) customError =
      tf "errStatus.defaultStatusError" := by
  simp only [tryBody]
  rw [htr]
  simp

/-- Branch equation: a truthy value whose message contains "aborted". -/
theorem tryBody_aborted (v : ErrVal) (tf : Translate)
    (customError : Option CustomError) (htr : truthy v = true)
    (hab : strContains (extractMessage v) "aborted" = true) :
    tryBody (Option.some v) (Option.some tf) customError =
      tf "errStatus.abortError" := by
  simp only [tryBody]
  rw [htr, hab]
  simp

/-- Branch equation: a truthy value whose message contains "timeout" but
not "aborted". -/
theorem tryBody_timeout (v : ErrVal) (tf : Translate)
    (customError : Option CustomError) (htr : truthy v = true)
    (hab : strContains (extractMessage v) "aborted" = false)
    (hto : strContains (extractMessage v) "timeout" = true) :
    tryBody (Option.some v) (Option.some tf) customError =
      tf "errStatus.408" := by
  simp only [tryBody]
  rw [htr, hab, hto]
  simp

/-- Branch equation: the direct numeric status-code match. -/
theorem tryBody_direct (v : ErrVal) (tf : Translate)
    (customError : Option CustomError) (code : Int) (htr : truthy v = true)
    (hab : strContains (extractMessage v) "aborted" = false)
    (hto : strContains (extractMessage v) "timeout" = false)
    (hdn : directNumericCode v = Option.some code) :
    tryBody (Option.some v) (Option.some tf) customError =
      tf ("errStatus." ++ toString code) := by
  simp only [tryBody]
  rw [htr, hab, hto, hdn]
  simp

/-- Branch equation: the string-based status-code scan. -/
theorem tryBody_scan (v : ErrVal) (tf : Translate)
    (customError : Option CustomError) (code : Int) (htr : truthy v = true)
    (hab : strContains (extractMessage v) "aborted" = false)
    (hto : strContains (extractMessage v) "timeout" = false)
    (hdn : directNumericCode v = Option.none)
    (hfc : firstCodeIn (extractMessage v) = Option.some code) :
    tryBody (Option.some v) (Option.some tf) customError =
      tf ("errStatus." ++ toString code) := by
  simp only [tryBody]
  rw [htr, hab, hto, hdn, hfc]
  simp

/-- Branch equation: no rule matched, so control reaches the custom
classifier fallback. -/
theorem tryBody_noMatch (v : ErrVal) (tf : Translate)
    (customError : Option CustomError) (htr : truthy v = true)
    (hab : strContains (extractMessage v) "aborted" = false)
    (hto : strContains (extractMessage v) "timeout" = false)
    (hdn : directNumericCode v = Option.none)
    (hfc : firstCodeIn (extractMessage v) = Option.none) :
    tryBody (Option.some v) (Option.some tf) customError =
      (match customError with
       | Option.some ce =>
         match ce v with
         | Except.error e => Except.error e
         | Except.ok (Option.some msg) =>
             if msg == "" then tf "errStatus.defaultStatusError"
             else Except.ok msg
         | Except.ok Option.none => tf "errStatus.defaultStatusError"
       | Option.none => tf "errStatus.defaultStatusError") := by
  simp only [tryBody]
  rw [htr, hab, hto, hdn, hfc]
  simp

/-! ## Claim theorems -/

/-- C1 counterexample: the claim "evaluating the classifier never raises
to its caller" is false as stated.  With a translate function that faults
whenever it is called, the classifier evaluated at the string "x" lets the
fault escape: the catch handler's own call
`t("errStatus.unexpectedError")` faults again and is not caught. -/
theorem errorStatus_raises_cex :
    errorStatus (Option.some (ErrVal.str "x"))
      (Option.some (fun _ => Except.error ()))
      Option.none Option.none false = Except.error () := rfl

/-- C1 (amended): every fault raised inside the try body — including a
fault of the translate function or of the custom classifier — is caught
at the function boundary and converted into
`translate("errStatus.unexpectedError")`, provided the translate
function's call in the recovery handler itself succeeds; if translate is
absent or also faults there, the fault propagates to the caller. -/
theorem errorStatus_fault_recovery (error : Option ErrVal) (tf : Translate)
    (customError : Option CustomError) (o : Option ErrorStatusOptions)
    (srv : Bool) (u : Unit) (m : String)
    (hbody : tryBody error (Option.some tf) customError = Except.error u)
    (hrec : tf "errStatus.unexpectedError" = Except.ok m) :
    errorStatus error (Option.some tf) customError o srv = Except.ok m := by
  simp only [errorStatus, runCatch, hbody, hrec]

/-- Witness for C1: a translate function that faults on every key except
the recovery key; the fault raised on the default-message path is caught
and answered with the recovery translation. -/
theorem errorStatus_fault_recovery_witness :
    errorStatus (Option.some (ErrVal.str "boom"))
      (Option.some (fun k =>
        if k == "errStatus.unexpectedError" then Except.ok "recovered"
        else Except.error ()))
      Option.none Option.none false = Except.ok "recovered" :=
  errorStatus_fault_recovery (Option.some (ErrVal.str "boom"))
    (fun k =>
      if k == "errStatus.unexpectedError" then Except.ok "recovered"
      else Except.error ())
    Option.none Option.none false () "recovered" rfl rfl

/-- C2 (confirmed): when the error holder is absent while the translate
function is present, the classifier returns
`translate("errStatus.missingParameters")` and never inspects or
classifies any error value (the result is the same for every custom
classifier). -/
theorem errorStatus_missing_params (tf : Translate)
    (customError : Option CustomError) (o : Option ErrorStatusOptions)
    (srv : Bool) (m : String)
    (h : tf "errStatus.missingParameters" = Except.ok m) :
    errorStatus Option.none (Option.some tf) customError o srv =
      Except.ok m := by
  simp only [errorStatus, tryBody, runCatch, h]

/-- Witness for C2: the identity-like translate function on a missing
holder yields the missing-parameters key. -/
theorem errorStatus_missing_params_witness :
    errorStatus Option.none (Option.some (fun k => Except.ok k))
      Option.none Option.none false =
      Except.ok "errStatus.missingParameters" :=
  errorStatus_missing_params (fun k => Except.ok k) Option.none Option.none
    false "errStatus.missingParameters" rfl

/-- C4 (confirmed): for every non-empty string error value containing the
substring "aborted", the result is `translate("errStatus.abortError")`,
for every custom classifier and options. -/
theorem errorStatus_aborted (s : String) (hs : s ≠ "")
    (hab : strContains s "aborted" = true) (tf : Translate)
    (customError : Option CustomError) (o : Option ErrorStatusOptions)
    (srv : Bool) (m : String)
    (h : tf "errStatus.abortError" = Except.ok m) :
    errorStatus (Option.some (ErrVal.str s)) (Option.some tf) customError
      o srv = Except.ok m := by
  have htr : truthy (ErrVal.str s) = true := by
    simp [truthy, hs]
  rw [errorStatus,
    tryBody_aborted (ErrVal.str s) tf customError htr hab, h, runCatch_ok]

/-- Witness for C4: the message "Request aborted 500" contains "aborted"
and status-code digits, yet classifies as the abort error. -/
theorem errorStatus_aborted_witness :
    errorStatus (Option.some (ErrVal.str "Request aborted 500"))
      (Option.some (fun k => Except.ok k))
      (Option.some (fun _ => Except.ok (Option.some "custom")))
      Option.none false = Except.ok "errStatus.abortError" :=
  errorStatus_aborted "Request aborted 500" (by decide) (by decide)
    (fun k => Except.ok k)
    (Option.some (fun _ => Except.ok (Option.some "custom")))
    Option.none false "errStatus.abortError" rfl

/-- C5 (confirmed): for every non-empty string error value containing
"timeout" but not "aborted", the result is `translate("errStatus.408")`. -/
theorem errorStatus_timeout (s : String) (hs : s ≠ "")
    (hab : strContains s "aborted" = false)
    (hto : strContains s "timeout" = true) (tf : Translate)
    (customError : Option CustomError) (o : Option ErrorStatusOptions)
    (srv : Bool) (m : String)
    (h : tf "errStatus.408" = Except.ok m) :
    errorStatus (Option.some (ErrVal.str s)) (Option.some tf) customError
      o srv = Except.ok m := by
  have htr : truthy (ErrVal.str s) = true := by
    simp [truthy, hs]
  rw [errorStatus,
    tryBody_timeout (ErrVal.str s) tf customError htr hab hto, h,
    runCatch_ok]

/-- Witness for C5: a timeout message classifies as the 408 status. -/
theorem errorStatus_timeout_witness :
    errorStatus (Option.some (ErrVal.str "connect timeout"))
      (Option.some (fun k => Except.ok k)) Option.none Option.none false =
      Except.ok "errStatus.408" :=
  errorStatus_timeout "connect timeout" (by decide) (by decide) (by decide)
    (fun k => Except.ok k) Option.none Option.none false "errStatus.408"
    rfl

/-- C6 (confirmed): for every numeric error value exactly equal to one of
the ten known codes, the result is `translate("errStatus.<code>")` for
that code, for every custom classifier and options. -/
theorem errorStatus_numeric_direct (n : Int) (hn : n ∈ httpStatusCodes)
    (tf : Translate) (customError : Option CustomError)
    (o : Option ErrorStatusOptions) (srv : Bool) (m : String)
    (h : tf ("errStatus." ++ toString n) = Except.ok m) :
    errorStatus (Option.some (ErrVal.num n)) (Option.some tf) customError
      o srv = Except.ok m := by
  have hside : truthy (ErrVal.num n) = true
      ∧ strContains (extractMessage (ErrVal.num n)) "aborted" = false
      ∧ strContains (extractMessage (ErrVal.num n)) "timeout" = false
      ∧ directNumericCode (ErrVal.num n) = Option.some n := by
    simp only [httpStatusCodes, List.mem_cons, List.not_mem_nil,
      or_false] at hn
    rcases hn with rfl | rfl | rfl | rfl | rfl | rfl | rfl | rfl | rfl |
      rfl <;> exact ⟨rfl, rfl, rfl, rfl⟩
  obtain ⟨htr, hab, hto, hdn⟩ := hside
  rw [errorStatus,
    tryBody_direct (ErrVal.num n) tf customError n htr hab hto hdn, h,
    runCatch_ok]

/-- Witness for C6: the numeric value 404 classifies as the 404 status. -/
theorem errorStatus_numeric_direct_witness :
    errorStatus (Option.some (ErrVal.num 404))
      (Option.some (fun k => Except.ok k)) Option.none Option.none false =
      Except.ok "errStatus.404" :=
  errorStatus_numeric_direct 404 (by decide) (fun k => Except.ok k)
    Option.none Option.none false "errStatus.404" rfl

/-- C3 (confirmed): for a string error value containing the decimal form
of a known code but neither "aborted" nor "timeout", the result is
`translate("errStatus.<code>")` for the first code of the fixed ordered
list whose decimal string occurs in the message — first match in listed
order wins, even on false positives such as "1500ms" containing "500".
The position of the winning code is expressed by decomposing
`httpStatusCodes` as `l1 ++ c :: l2` with no code of `l1` occurring. -/
theorem errorStatus_first_code_scan (s : String) (c : Int)
    (l1 l2 : List Int) (hdec : httpStatusCodes = l1 ++ c :: l2)
    (hskip : ∀ d ∈ l1, strContains s (toString d) = false)
    (hc : strContains s (toString c) = true)
    (hab : strContains s "aborted" = false)
    (hto : strContains s "timeout" = false) (tf : Translate)
    (customError : Option CustomError) (o : Option ErrorStatusOptions)
    (srv : Bool) (m : String)
    (h : tf ("errStatus." ++ toString c) = Except.ok m) :
    errorStatus (Option.some (ErrVal.str s)) (Option.some tf) customError
      o srv = Except.ok m := by
  have hmem : c ∈ httpStatusCodes := by
    rw [hdec]
    exact List.mem_append_right l1 (List.mem_cons_self c l2)
  have hcne : toString c ≠ "" := by
    simp only [httpStatusCodes, List.mem_cons, List.not_mem_nil,
      or_false] at hmem
    rcases hmem with rfl | rfl | rfl | rfl | rfl | rfl | rfl | rfl | rfl |
      rfl <;> decide
  have hs : s ≠ "" := ne_empty_of_strContains s (toString c) hcne hc
  have htr : truthy (ErrVal.str s) = true := by
    simp [truthy, hs]
  have hfc : firstCodeIn (extractMessage (ErrVal.str s)) =
      Option.some c := by
    simp only [extractMessage, firstCodeIn, hdec]
    exact find?_eq_some_of_decomp _ l1 l2 c hskip hc
  rw [errorStatus,
    tryBody_scan (ErrVal.str s) tf customError c htr hab hto rfl hfc, h,
    runCatch_ok]

/-- Witness for C3: the message "1500ms" contains no code of
{400,401,403,404,408,429} but contains "500", so it classifies as the 500
status — the documented false positive. -/
theorem errorStatus_first_code_scan_witness :
    errorStatus (Option.some (ErrVal.str "1500ms"))
      (Option.some (fun k => Except.ok k)) Option.none Option.none false =
      Except.ok "errStatus.500" :=
  errorStatus_first_code_scan "1500ms" 500 [400, 401, 403, 404, 408, 429]
    [502, 503, 504] (by decide) (by decide) (by decide) (by decide)
    (by decide) (fun k => Except.ok k) Option.none Option.none false
    "errStatus.500" rfl

/-- C7 (confirmed): when a non-empty error value matches no special-text
or status-code rule, a supplied custom classifier returning a non-empty
string determines the result verbatim, bypassing translation; when the
custom classifier is absent or returns null or the empty string, the
result is `translate("errStatus.defaultStatusError")`. -/
theorem errorStatus_custom_fallback (v : ErrVal) (tf : Translate)
    (o : Option ErrorStatusOptions) (srv : Bool)
    (htr : truthy v = true)
    (hab : strContains (extractMessage v) "aborted" = false)
    (hto : strContains (extractMessage v) "timeout" = false)
    (hdn : directNumericCode v = Option.none)
    (hfc : firstCodeIn (extractMessage v) = Option.none) :
    (∀ (ce : CustomError) (r : String),
        ce v = Except.ok (Option.some r) → r ≠ "" →
        errorStatus (Option.some v) (Option.some tf) (Option.some ce) o
          srv = Except.ok r)
    ∧ (∀ m : String, tf "errStatus.defaultStatusError" = Except.ok m →
        errorStatus (Option.some v) (Option.some tf) Option.none o srv =
          Except.ok m
        ∧ ∀ ce : CustomError,
            (ce v = Except.ok Option.none
              ∨ ce v = Except.ok (Option.some "")) →
            errorStatus (Option.some v) (Option.some tf) (Option.some ce)
              o srv = Except.ok m) := by
  constructor
  · intro ce r hce hr
    rw [errorStatus,
      tryBody_noMatch v tf (Option.some ce) htr hab hto hdn hfc]
    simp [runCatch, hce, hr]
  · intro m hm
    constructor
    · rw [errorStatus,
        tryBody_noMatch v tf Option.none htr hab hto hdn hfc]
      simp [runCatch, hm]
    · intro ce hce
      rcases hce with hce | hce <;>
        rw [errorStatus,
          tryBody_noMatch v tf (Option.some ce) htr hab hto hdn hfc] <;>
        simp [runCatch, hce, hm]

/-- Witness for C7: an `Error` object with message "Custom weirdness"
matches no rule; a custom classifier returning "This is a custom error"
determines the result verbatim, and with no custom classifier the
default message is returned. -/
theorem errorStatus_custom_fallback_witness :
    errorStatus (Option.some (ErrVal.errObj "Custom weirdness"))
      (Option.some (fun k => Except.ok k))
      (Option.some (fun _ => Except.ok (Option.some "This is a custom error")))
      Option.none false = Except.ok "This is a custom error"
    ∧ errorStatus (Option.some (ErrVal.errObj "Custom weirdness"))
      (Option.some (fun k => Except.ok k)) Option.none Option.none false =
      Except.ok "errStatus.defaultStatusError" :=
  ⟨(errorStatus_custom_fallback (ErrVal.errObj "Custom weirdness")
      (fun k => Except.ok k) Option.none false rfl (by decide) (by decide)
      rfl (by decide)).1
      (fun _ => Except.ok (Option.some "This is a custom error"))
      "This is a custom error" rfl (by decide),
   ((errorStatus_custom_fallback (ErrVal.errObj "Custom weirdness")
      (fun k => Except.ok k) Option.none false rfl (by decide) (by decide)
      rfl (by decide)).2 "errStatus.defaultStatusError" rfl).1⟩

/-- C8 (confirmed): when the held error value is null/absent and the
translate function is present, the result is
`translate("errStatus.defaultStatusError")` — there is no dedicated
"no error" message, for every custom classifier and options. -/
theorem errorStatus_null_default (tf : Translate)
    (customError : Option CustomError) (o : Option ErrorStatusOptions)
    (srv : Bool) (m : String)
    (h : tf "errStatus.defaultStatusError" = Except.ok m) :
    errorStatus (Option.some ErrVal.null) (Option.some tf) customError o
      srv = Except.ok m := by
  rw [errorStatus, tryBody_falsy ErrVal.null tf customError rfl, h,
    runCatch_ok]

/-- Witness for C8: a null held value yields the default status key. -/
theorem errorStatus_null_default_witness :
    errorStatus (Option.some ErrVal.null)
      (Option.some (fun k => Except.ok k)) Option.none Option.none false =
      Except.ok "errStatus.defaultStatusError" :=
  errorStatus_null_default (fun k => Except.ok k) Option.none Option.none
    false "errStatus.defaultStatusError" rfl

/-- C10 (confirmed): for every falsy error value — null/undefined, the
number 0, or the empty string — the whole classification chain including
the custom classifier is skipped: the result is
`translate("errStatus.defaultStatusError")` for every custom classifier,
even one that would return a non-empty string (or fault) on that value. -/
theorem errorStatus_falsy_skips_custom (v : ErrVal)
    (hv : v = ErrVal.null ∨ v = ErrVal.num 0 ∨ v = ErrVal.str "")
    (tf : Translate) (ce : CustomError) (o : Option ErrorStatusOptions)
    (srv : Bool) (m : String)
    (h : tf "errStatus.defaultStatusError" = Except.ok m) :
    errorStatus (Option.some v) (Option.some tf) (Option.some ce) o srv =
      Except.ok m := by
  have htr : truthy v = false := by
    rcases hv with rfl | rfl | rfl <;> rfl
  rw [errorStatus, tryBody_falsy v tf (Option.some ce) htr, h, runCatch_ok]

/-- Witness for C10: the number 0 with a custom classifier that would
answer "never" still yields the default status key. -/
theorem errorStatus_falsy_skips_custom_witness :
    errorStatus (Option.some (ErrVal.num 0))
      (Option.some (fun k => Except.ok k))
      (Option.some (fun _ => Except.ok (Option.some "never"))) Option.none
      false = Except.ok "errStatus.defaultStatusError" :=
  errorStatus_falsy_skips_custom (ErrVal.num 0) (Or.inr (Or.inl rfl))
    (fun k => Except.ok k) (fun _ => Except.ok (Option.some "never"))
    Option.none false "errStatus.defaultStatusError" rfl

/-- C9 (confirmed): the logging gate is a pure boolean function of the
options and the server probe: false whenever debug is not true (and when
no options record is supplied); true whenever debug is true and
serverOnly is false or unset; and when both debug and serverOnly are
true, true exactly when the probe reports a server-side context. -/
theorem logOption_gate :
    (∀ srv, logOption srv Option.none = false)
    ∧ (∀ srv o, o.debug ≠ Option.some true →
        logOption srv (Option.some o) = false)
    ∧ (∀ srv o, o.debug = Option.some true →
        o.serverOnly ≠ Option.some true →
        logOption srv (Option.some o) = true)
    ∧ (∀ srv o, o.debug = Option.some true →
        o.serverOnly = Option.some true →
        logOption srv (Option.some o) = srv) := by
  refine ⟨fun srv => rfl, ?_, ?_, ?_⟩
  · intro srv o hd
    rcases hdd : o.debug with _ | b
    · simp [logOption, hdd]
    · cases b with
      | false => simp [logOption, hdd]
      | true => exact absurd hdd hd
  · intro srv o hd hs
    rcases hso : o.serverOnly with _ | b
    · simp [logOption, hd, hso]
    · cases b with
      | false => simp [logOption, hd, hso]
      | true => exact absurd hso hs
  · intro srv o hd hs
    simp [logOption, hd, hs]

/-- Witness for C9: the gate evaluated on concrete option records: no
record, debug false, debug-only, and debug with serverOnly on both sides
of the probe. -/
theorem logOption_gate_witness :
    logOption false Option.none = false
    ∧ logOption true (Option.some ⟨Option.some false, Option.none⟩) = false
    ∧ logOption false (Option.some ⟨Option.some true, Option.none⟩) = true
    ∧ logOption true (Option.some ⟨Option.some true, Option.some true⟩) =
        true
    ∧ logOption false (Option.some ⟨Option.some true, Option.some true⟩) =
        false :=
  ⟨logOption_gate.1 false,
   logOption_gate.2.1 true ⟨Option.some false, Option.none⟩ (by decide),
   logOption_gate.2.2.1 false ⟨Option.some true, Option.none⟩ rfl
     (by decide),
   logOption_gate.2.2.2 true ⟨Option.some true, Option.some true⟩ rfl rfl,
   logOption_gate.2.2.2 false ⟨Option.some true, Option.some true⟩ rfl rfl⟩
